import Mathlib

/-
Verification of the Nurox usage-limiter subsystem
(`Nurox/services/usage_limiter.py` and the plan catalog in
`Nurox/database/models.py`).

Timestamps are modelled as `Int` seconds (Python `datetime` arithmetic with
`timedelta`); counters are `Int` (Python integers are unbounded).  The
`db.commit()` persistence point is modelled by returning, next to the call
result, the record that is persisted after the call: the pre-call record if
an exception was raised before the final commit, the updated record if the
call succeeded.
-/

namespace Nurox

/-- One entry of `PLAN_LIMITS` in `database/models.py`: the three limit
fields of a plan. `-1` denotes "unlimited" in the catalog data. -/
structure Limits where
  daily_debates   : Int
  monthly_debates : Int
  rate_per_minute : Int
deriving DecidableEq, Repr

/-- The `PLAN_LIMITS` dict of `database/models.py`. `none` models the
`KeyError` that a lookup of an unknown key raises in Python. -/
def PLAN_LIMITS (plan : String) : Option Limits :=
  if plan = "free" then
    some { daily_debates := 5, monthly_debates := 50, rate_per_minute := 3 }
  else if plan = "pro" then
    some { daily_debates := 100, monthly_debates := 2000, rate_per_minute := 20 }
  else if plan = "enterprise" then
    some { daily_debates := -1, monthly_debates := -1, rate_per_minute := 100 }
  else none

/-- The `UsageTracking` row of `database/models.py`: per-window counters and
window-start timestamps, plus the lifetime counter. -/
structure UsageTracking where
  debates_today        : Int
  daily_reset_at       : Int
  debates_this_month   : Int
  monthly_reset_at     : Int
  requests_this_minute : Int
  minute_window_start  : Int
  total_debates        : Int
deriving DecidableEq, Repr

/-- A freshly created `UsageTracking(user_id=...)` row: the column defaults
set every counter to 0 and every window start to the creation time. -/
def newTracking (now : Int) : UsageTracking :=
  { debates_today := 0, daily_reset_at := now,
    debates_this_month := 0, monthly_reset_at := now,
    requests_this_minute := 0, minute_window_start := now,
    total_debates := 0 }

/-- Window lengths used by `_reset_windows`, in seconds:
`timedelta(hours=24)`, `timedelta(days=30)`, `timedelta(minutes=1)`. -/
def DAY_SECONDS : Int := 86400

def MONTH_SECONDS : Int := 2592000

def MINUTE_SECONDS : Int := 60

/-- `UsageLimiter._reset_windows` of `services/usage_limiter.py`: with a
single `now`, lazily zero each counter whose window has elapsed and advance
the corresponding window start.  The source mutates the row in place; here
the updated row is returned. -/
def resetWindows (now : Int) (t : UsageTracking) : UsageTracking :=
  let t1 :=
    if now - t.daily_reset_at ≥ DAY_SECONDS then
      { t with debates_today := 0, daily_reset_at := now }
    else t
  let t2 :=
    if now - t1.monthly_reset_at ≥ MONTH_SECONDS then
      { t1 with debates_this_month := 0, monthly_reset_at := now }
    else t1
  if now - t2.minute_window_start ≥ MINUTE_SECONDS then
    { t2 with requests_this_minute := 0, minute_window_start := now }
  else t2

/-- The `detail` dict of the `HTTPException` raised by `check_and_consume`.
The rate-limit branch populates only `error`, `message` and `upgrade`; the
daily and monthly branches additionally populate `used`, `limit` and
`resets_in`. -/
structure ErrorDetail where
  error     : String
  message   : String
  used      : Option Int
  limit     : Option Int
  resets_in : Option String
  upgrade   : Bool
deriving DecidableEq, Repr

/-- An exception escaping `check_and_consume`: either one of the structured
`HTTPException(status_code=..., detail=...)` quota errors, or the bare
`KeyError` raised by `PLAN_LIMITS[plan]` on an unrecognized plan. -/
inductive CallError where
  | http (statusCode : Nat) (detail : ErrorDetail)
  | keyError (key : String)
deriving DecidableEq, Repr

/-- The snapshot dict returned by `check_and_consume` on success. -/
structure Snapshot where
  plan          : String
  used_today    : Int
  daily_limit   : Int
  used_monthly  : Int
  monthly_limit : Int
deriving DecidableEq, Repr

/-- Python `user.plan or "free"`: `None` and the empty string are falsy, so
both default to `"free"`. -/
def planOrDefault (p : Option String) : String :=
  match p with
  | none => "free"
  | some s => if s = "" then "free" else s

/-- The body of `check_and_consume` after the `PLAN_LIMITS` lookup and the
tracking fetch: apply `_reset_windows`, evaluate the rate, daily and monthly
checks in that order (the daily and monthly checks skip a `-1` limit, the
rate check has no such case), and on success increment the four counters and
build the snapshot.  Returns the record as left for the final commit. -/
def checkAndConsumeWith (plan : String) (limits : Limits)
    (tracking : UsageTracking) (now : Int) :
    Except CallError (UsageTracking × Snapshot) :=
  let t := resetWindows now tracking
  if t.requests_this_minute ≥ limits.rate_per_minute then
    .error (.http 429
      { error := "rate_limit_exceeded",
        message := "Slow down! Max " ++ toString limits.rate_per_minute ++
          " requests/minute on " ++ plan ++ " plan.",
        used := none, limit := none, resets_in := none,
        upgrade := plan != "enterprise" })
  else if limits.daily_debates ≠ -1 ∧ t.debates_today ≥ limits.daily_debates then
    .error (.http 429
      { error := "daily_limit_exceeded",
        message := "Daily limit of " ++ toString limits.daily_debates ++
          " debates reached on " ++ plan ++ " plan.",
        used := some t.debates_today, limit := some limits.daily_debates,
        resets_in := some "24 hours",
        upgrade := plan != "enterprise" })
  else if limits.monthly_debates ≠ -1 ∧ t.debates_this_month ≥ limits.monthly_debates then
    .error (.http 429
      { error := "monthly_limit_exceeded",
        message := "Monthly limit of " ++ toString limits.monthly_debates ++
          " debates reached on " ++ plan ++ " plan.",
        used := some t.debates_this_month, limit := some limits.monthly_debates,
        resets_in := some "30 days",
        upgrade := plan != "enterprise" })
  else
    let t2 := { t with
      debates_today        := t.debates_today + 1,
      debates_this_month   := t.debates_this_month + 1,
      requests_this_minute := t.requests_this_minute + 1,
      total_debates        := t.total_debates + 1 }
    .ok (t2,
      { plan := plan,
        used_today := t2.debates_today,
        daily_limit := limits.daily_debates,
        used_monthly := t2.debates_this_month,
        monthly_limit := limits.monthly_debates })

/-- `UsageLimiter.check_and_consume` on an existing tracking record: resolve
the plan (`user.plan or "free"`), look `PLAN_LIMITS[plan]` up, run the
checks, and pair the call result with the record persisted after the call.
`self.db.commit()` runs only on the success path, so on any raised error the
persisted record is the pre-call one. -/
def checkAndConsume (userPlan : Option String) (tracking : UsageTracking)
    (now : Int) : Except CallError Snapshot × UsageTracking :=
  let plan := planOrDefault userPlan
  match PLAN_LIMITS plan with
  | none => (.error (.keyError plan), tracking)
  | some limits =>
    match checkAndConsumeWith plan limits tracking now with
    | .error e => (.error e, tracking)
    | .ok (t2, snap) => (.ok snap, t2)

/-- Whether a call result is a success. -/
def succeeded (r : Except CallError Snapshot) : Bool :=
  match r with
  | .ok _ => true
  | .error _ => false

/-- The `error` field of a structured quota error, if the result is one. -/
def errorName (r : Except CallError Snapshot) : Option String :=
  match r with
  | .error (.http _ d) => some d.error
  | _ => none

/-- Run a sequence of `check_and_consume` calls at the given times against
one user's record, returning the final persisted record and the number of
successful calls. -/
def runCalls (userPlan : Option String) (t : UsageTracking) :
    List Int → UsageTracking × Nat
  | [] => (t, 0)
  | now :: rest =>
    let r := checkAndConsume userPlan t now
    let rec' := runCalls userPlan r.2 rest
    (rec'.1, (if succeeded r.1 then 1 else 0) + rec'.2)

/-- C10: the plan catalog contains exactly the three plans free, pro and
enterprise, with daily/monthly/rate limits (5, 50, 3), (100, 2000, 20) and
(-1, -1, 100) respectively: the enterprise plan is still rate-limited per
minute (100, not -1), and every other key is absent. -/
theorem c10_plan_catalog :
    PLAN_LIMITS "free" =
      some { daily_debates := 5, monthly_debates := 50, rate_per_minute := 3 } ∧
    PLAN_LIMITS "pro" =
      some { daily_debates := 100, monthly_debates := 2000, rate_per_minute := 20 } ∧
    PLAN_LIMITS "enterprise" =
      some { daily_debates := -1, monthly_debates := -1, rate_per_minute := 100 } ∧
    (∀ s : String, s ≠ "free" → s ≠ "pro" → s ≠ "enterprise" →
      PLAN_LIMITS s = none) := by
  refine ⟨rfl, rfl, rfl, ?_⟩
  intro s h1 h2 h3
  simp [PLAN_LIMITS, h1, h2, h3]

/-- Witness for c10_plan_catalog: instantiating the unknown-key clause at the
concrete key "platinum". -/
theorem c10_plan_catalog_witness : PLAN_LIMITS "platinum" = none :=
  c10_plan_catalog.2.2.2 "platinum" (by decide) (by decide) (by decide)

/-- C5: the reset policy evaluates the three rules against one value of
`now`, each rule touching only its own counter and window start: the minute
counter is zeroed and its window start advanced exactly when at least 60
seconds elapsed, the daily pair exactly at 24 hours, the monthly pair
exactly at 30 days; a negative elapsed time (now before the window start)
never fires a reset, and the lifetime counter is untouched. -/
theorem c5_reset_windows_spec (now : Int) (t : UsageTracking) :
    (resetWindows now t).requests_this_minute =
      (if now - t.minute_window_start ≥ MINUTE_SECONDS then 0
       else t.requests_this_minute) ∧
    (resetWindows now t).minute_window_start =
      (if now - t.minute_window_start ≥ MINUTE_SECONDS then now
       else t.minute_window_start) ∧
    (resetWindows now t).debates_today =
      (if now - t.daily_reset_at ≥ DAY_SECONDS then 0 else t.debates_today) ∧
    (resetWindows now t).daily_reset_at =
      (if now - t.daily_reset_at ≥ DAY_SECONDS then now else t.daily_reset_at) ∧
    (resetWindows now t).debates_this_month =
      (if now - t.monthly_reset_at ≥ MONTH_SECONDS then 0
       else t.debates_this_month) ∧
    (resetWindows now t).monthly_reset_at =
      (if now - t.monthly_reset_at ≥ MONTH_SECONDS then now
       else t.monthly_reset_at) ∧
    (resetWindows now t).total_debates = t.total_debates := by
  by_cases hd : DAY_SECONDS ≤ now - t.daily_reset_at <;>
    by_cases hm : MONTH_SECONDS ≤ now - t.monthly_reset_at <;>
      by_cases hr : MINUTE_SECONDS ≤ now - t.minute_window_start <;>
        simp [resetWindows, ge_iff_le, hd, hm, hr]

/-- C4: whenever `check_and_consume` raises (any quota error, or the
`KeyError` of an unknown plan), no commit runs, so the persisted record is
exactly the pre-call record: no window reset and no increment survives. -/
theorem c4_error_preserves_record (userPlan : Option String)
    (t : UsageTracking) (now : Int) (e : CallError)
    (h : (checkAndConsume userPlan t now).1 = .error e) :
    (checkAndConsume userPlan t now).2 = t := by
  unfold checkAndConsume at *
  cases hp : PLAN_LIMITS (planOrDefault userPlan) with
  | none => simp [hp]
  | some limits =>
    simp only [hp] at h ⊢
    cases hc : checkAndConsumeWith (planOrDefault userPlan) limits t now with
    | error e2 => simp [hc]
    | ok v => simp [hc] at h

/-- Witness for c4_error_preserves_record: the spec's concrete scenario — a
free-plan record with `requests_this_minute = rate_per_minute = 3` and a
minute window started 10 seconds ago fails with the rate-limit error and the
persisted record is unchanged. -/
theorem c4_error_preserves_record_witness :
    (checkAndConsume (some "free")
        { debates_today := 1, daily_reset_at := 100,
          debates_this_month := 1, monthly_reset_at := 100,
          requests_this_minute := 3, minute_window_start := 90,
          total_debates := 7 } 100).1 =
      .error (.http 429
        { error := "rate_limit_exceeded",
          message := "Slow down! Max 3 requests/minute on free plan.",
          used := none, limit := none, resets_in := none, upgrade := true }) ∧
    (checkAndConsume (some "free")
        { debates_today := 1, daily_reset_at := 100,
          debates_this_month := 1, monthly_reset_at := 100,
          requests_this_minute := 3, minute_window_start := 90,
          total_debates := 7 } 100).2 =
      { debates_today := 1, daily_reset_at := 100,
        debates_this_month := 1, monthly_reset_at := 100,
        requests_this_minute := 3, minute_window_start := 90,
        total_debates := 7 } :=
  ⟨rfl, c4_error_preserves_record (some "free") _ 100 _ rfl⟩

/-- C1: when the plan lookup succeeds and all three limit checks pass on the
post-reset state, `check_and_consume` increments exactly the four counters
`debates_today`, `debates_this_month`, `requests_this_minute` and
`total_debates` by 1 on the post-reset state, persists that record, and
returns the snapshot holding the plan, the updated record's daily and
monthly usage, and the plan's daily and monthly limits. -/
theorem c1_success_increments_and_snapshot (userPlan : Option String)
    (t : UsageTracking) (now : Int) (limits : Limits)
    (hl : PLAN_LIMITS (planOrDefault userPlan) = some limits)
    (h1 : ¬ (resetWindows now t).requests_this_minute ≥ limits.rate_per_minute)
    (h2 : ¬ (limits.daily_debates ≠ -1 ∧
      (resetWindows now t).debates_today ≥ limits.daily_debates))
    (h3 : ¬ (limits.monthly_debates ≠ -1 ∧
      (resetWindows now t).debates_this_month ≥ limits.monthly_debates)) :
    checkAndConsume userPlan t now =
      (.ok { plan := planOrDefault userPlan,
             used_today := (resetWindows now t).debates_today + 1,
             daily_limit := limits.daily_debates,
             used_monthly := (resetWindows now t).debates_this_month + 1,
             monthly_limit := limits.monthly_debates },
       { resetWindows now t with
         debates_today := (resetWindows now t).debates_today + 1,
         debates_this_month := (resetWindows now t).debates_this_month + 1,
         requests_this_minute := (resetWindows now t).requests_this_minute + 1,
         total_debates := (resetWindows now t).total_debates + 1 }) := by
  unfold checkAndConsume
  simp [hl, checkAndConsumeWith, h1, h2, h3]

/-- Witness for c1_success_increments_and_snapshot: the first call of a free
user on a fresh record succeeds, sets all four counters to 1 and returns the
expected snapshot. -/
theorem c1_success_increments_and_snapshot_witness :
    checkAndConsume (some "free") (newTracking 0) 0 =
      (.ok { plan := "free", used_today := 1, daily_limit := 5,
             used_monthly := 1, monthly_limit := 50 },
       { debates_today := 1, daily_reset_at := 0, debates_this_month := 1,
         monthly_reset_at := 0, requests_this_minute := 1,
         minute_window_start := 0, total_debates := 1 }) :=
  c1_success_increments_and_snapshot (some "free") (newTracking 0) 0
    { daily_debates := 5, monthly_debates := 50, rate_per_minute := 3 }
    rfl (by decide) (by decide) (by decide)

/-- C2: the checks run in the fixed precedence order rate, daily, monthly,
failing fast with the highest-precedence violated limit's error: a
post-reset state at or over the rate limit fails with the rate error
whatever the other counters hold (in particular when it simultaneously
exceeds the daily limit); with the rate limit respected, an exceeded daily
limit fails with the daily error whatever the monthly counter holds; and
with rate and daily respected, an exceeded monthly limit fails with the
monthly error.  In every case the record is not persisted. -/
theorem c2_rate_precedence (userPlan : Option String) (t : UsageTracking)
    (now : Int) (limits : Limits)
    (hl : PLAN_LIMITS (planOrDefault userPlan) = some limits) :
    ((resetWindows now t).requests_this_minute ≥ limits.rate_per_minute →
      checkAndConsume userPlan t now =
        (.error (.http 429
          { error := "rate_limit_exceeded",
            message := "Slow down! Max " ++ toString limits.rate_per_minute ++
              " requests/minute on " ++ planOrDefault userPlan ++ " plan.",
            used := none, limit := none, resets_in := none,
            upgrade := planOrDefault userPlan != "enterprise" }), t)) ∧
    (¬ (resetWindows now t).requests_this_minute ≥ limits.rate_per_minute →
      limits.daily_debates ≠ -1 ∧
        (resetWindows now t).debates_today ≥ limits.daily_debates →
      checkAndConsume userPlan t now =
        (.error (.http 429
          { error := "daily_limit_exceeded",
            message := "Daily limit of " ++ toString limits.daily_debates ++
              " debates reached on " ++ planOrDefault userPlan ++ " plan.",
            used := some (resetWindows now t).debates_today,
            limit := some limits.daily_debates,
            resets_in := some "24 hours",
            upgrade := planOrDefault userPlan != "enterprise" }), t)) ∧
    (¬ (resetWindows now t).requests_this_minute ≥ limits.rate_per_minute →
      ¬ (limits.daily_debates ≠ -1 ∧
        (resetWindows now t).debates_today ≥ limits.daily_debates) →
      limits.monthly_debates ≠ -1 ∧
        (resetWindows now t).debates_this_month ≥ limits.monthly_debates →
      checkAndConsume userPlan t now =
        (.error (.http 429
          { error := "monthly_limit_exceeded",
            message := "Monthly limit of " ++ toString limits.monthly_debates ++
              " debates reached on " ++ planOrDefault userPlan ++ " plan.",
            used := some (resetWindows now t).debates_this_month,
            limit := some limits.monthly_debates,
            resets_in := some "30 days",
            upgrade := planOrDefault userPlan != "enterprise" }), t)) := by
  refine ⟨?_, ?_, ?_⟩
  · intro hr
    unfold checkAndConsume
    simp [hl, checkAndConsumeWith, hr]
  · intro hr hd
    unfold checkAndConsume
    simp [hl, checkAndConsumeWith, hr, hd]
  · intro hr hd hm
    unfold checkAndConsume
    simp [hl, checkAndConsumeWith, hr, hd, hm]

/-- Witness for c2_rate_precedence: a free-plan record simultaneously over
the rate limit (3 of 3) and over the daily limit (5 of 5) fails with the
rate-limit error, not the daily one; and a free-plan record under the rate
limit but over both the daily (5 of 5) and the monthly (50 of 50) limits
fails with the daily error, not the monthly one. -/
theorem c2_rate_precedence_witness :
    checkAndConsume (some "free")
        { debates_today := 5, daily_reset_at := 0,
          debates_this_month := 10, monthly_reset_at := 0,
          requests_this_minute := 3, minute_window_start := 0,
          total_debates := 10 } 0 =
      (.error (.http 429
        { error := "rate_limit_exceeded",
          message := "Slow down! Max 3 requests/minute on free plan.",
          used := none, limit := none, resets_in := none, upgrade := true }),
       { debates_today := 5, daily_reset_at := 0,
         debates_this_month := 10, monthly_reset_at := 0,
         requests_this_minute := 3, minute_window_start := 0,
         total_debates := 10 }) ∧
    checkAndConsume (some "free")
        { debates_today := 5, daily_reset_at := 0,
          debates_this_month := 50, monthly_reset_at := 0,
          requests_this_minute := 0, minute_window_start := 0,
          total_debates := 55 } 0 =
      (.error (.http 429
        { error := "daily_limit_exceeded",
          message := "Daily limit of 5 debates reached on free plan.",
          used := some 5, limit := some 5, resets_in := some "24 hours",
          upgrade := true }),
       { debates_today := 5, daily_reset_at := 0,
         debates_this_month := 50, monthly_reset_at := 0,
         requests_this_minute := 0, minute_window_start := 0,
         total_debates := 55 }) :=
  ⟨(c2_rate_precedence (some "free") _ 0
      { daily_debates := 5, monthly_debates := 50, rate_per_minute := 3 }
      rfl).1 (by decide),
   (c2_rate_precedence (some "free") _ 0
      { daily_debates := 5, monthly_debates := 50, rate_per_minute := 3 }
      rfl).2.1 (by decide) (by decide)⟩

/-- C3 counterexample: the rate check has no `-1` case, unlike the daily and
monthly checks.  With a limits entry whose `rate_per_minute` is -1, a fresh
record with `requests_this_minute = 0` already satisfies `0 ≥ -1`, so the
call raises the rate-limit error: a -1 rate limit is not unlimited. -/
theorem c3_counterexample_rate_neg1 :
    (newTracking 0).requests_this_minute = 0 ∧
    checkAndConsumeWith "custom"
        { daily_debates := -1, monthly_debates := -1, rate_per_minute := -1 }
        (newTracking 0) 0 =
      .error (.http 429
        { error := "rate_limit_exceeded",
          message := "Slow down! Max -1 requests/minute on custom plan.",
          used := none, limit := none, resets_in := none, upgrade := true }) :=
  ⟨rfl, rfl⟩

/-- C3 amended: -1 means unlimited for the daily and the monthly check, each
independently of the other — with `daily_debates = -1` no call ever fails
with the daily error, and with `monthly_debates = -1` no call ever fails
with the monthly error, whatever the counter values (this covers mixed
configurations as well as the enterprise plan's both-unlimited entry); the
rate check, however, has no -1 case. -/
theorem c3_unlimited_daily_monthly (plan : String) (limits : Limits)
    (t : UsageTracking) (now : Int) :
    (limits.daily_debates = -1 →
      ∀ (c : Nat) (d : ErrorDetail),
        checkAndConsumeWith plan limits t now = .error (.http c d) →
        d.error ≠ "daily_limit_exceeded") ∧
    (limits.monthly_debates = -1 →
      ∀ (c : Nat) (d : ErrorDetail),
        checkAndConsumeWith plan limits t now = .error (.http c d) →
        d.error ≠ "monthly_limit_exceeded") := by
  constructor
  · intro hd c d h
    unfold checkAndConsumeWith at h
    simp only [hd, ne_eq, not_true_eq_false, false_and, if_false] at h
    split at h
    · injection h with h2
      injection h2 with hc hd2
      subst hd2
      simp
    · split at h
      · injection h with h2
        injection h2 with hc hd2
        subst hd2
        simp
      · exact absurd h (by simp)
  · intro hm c d h
    unfold checkAndConsumeWith at h
    simp only [hm, ne_eq, not_true_eq_false, false_and, if_false] at h
    split at h
    · injection h with h2
      injection h2 with hc hd2
      subst hd2
      simp
    · split at h
      · injection h with h2
        injection h2 with hc hd2
        subst hd2
        simp
      · exact absurd h (by simp)

/-- Witness for c3_unlimited_daily_monthly: a mixed configuration with only
`daily_debates = -1` and a record over its rate limit fails, but with the
rate error, never the daily one; and the enterprise entry (`monthly = -1`)
over its rate limit with `debates_this_month = 10000` likewise never fails
with the monthly error. -/
theorem c3_unlimited_daily_monthly_witness :
    checkAndConsumeWith "custom"
        { daily_debates := -1, monthly_debates := 50, rate_per_minute := 3 }
        { debates_today := 10000, daily_reset_at := 0,
          debates_this_month := 0, monthly_reset_at := 0,
          requests_this_minute := 3, minute_window_start := 0,
          total_debates := 10000 } 0 =
      .error (.http 429
        { error := "rate_limit_exceeded",
          message := "Slow down! Max 3 requests/minute on custom plan.",
          used := none, limit := none, resets_in := none, upgrade := true }) ∧
    ("rate_limit_exceeded" : String) ≠ "daily_limit_exceeded" ∧
    checkAndConsumeWith "enterprise"
        { daily_debates := -1, monthly_debates := -1, rate_per_minute := 100 }
        { debates_today := 10000, daily_reset_at := 0,
          debates_this_month := 10000, monthly_reset_at := 0,
          requests_this_minute := 100, minute_window_start := 0,
          total_debates := 20000 } 0 =
      .error (.http 429
        { error := "rate_limit_exceeded",
          message := "Slow down! Max 100 requests/minute on enterprise plan.",
          used := none, limit := none, resets_in := none, upgrade := false }) ∧
    ("rate_limit_exceeded" : String) ≠ "monthly_limit_exceeded" :=
  ⟨rfl,
   (c3_unlimited_daily_monthly "custom"
     { daily_debates := -1, monthly_debates := 50, rate_per_minute := 3 }
     { debates_today := 10000, daily_reset_at := 0,
       debates_this_month := 0, monthly_reset_at := 0,
       requests_this_minute := 3, minute_window_start := 0,
       total_debates := 10000 } 0).1 rfl 429
     { error := "rate_limit_exceeded",
       message := "Slow down! Max 3 requests/minute on custom plan.",
       used := none, limit := none, resets_in := none, upgrade := true }
     rfl,
   rfl,
   (c3_unlimited_daily_monthly "enterprise"
     { daily_debates := -1, monthly_debates := -1, rate_per_minute := 100 }
     { debates_today := 10000, daily_reset_at := 0,
       debates_this_month := 10000, monthly_reset_at := 0,
       requests_this_minute := 100, minute_window_start := 0,
       total_debates := 20000 } 0).2 rfl 429
     { error := "rate_limit_exceeded",
       message := "Slow down! Max 100 requests/minute on enterprise plan.",
       used := none, limit := none, resets_in := none, upgrade := false }
     rfl⟩

/-- Helper: a window reset never touches the lifetime counter. -/
theorem resetWindows_total_debates (now : Int) (t : UsageTracking) :
    (resetWindows now t).total_debates = t.total_debates := by
  by_cases hd : DAY_SECONDS ≤ now - t.daily_reset_at <;>
    by_cases hm : MONTH_SECONDS ≤ now - t.monthly_reset_at <;>
      by_cases hr : MINUTE_SECONDS ≤ now - t.minute_window_start <;>
        simp [resetWindows, ge_iff_le, hd, hm, hr]

/-- Helper: one `check_and_consume` call advances the persisted lifetime
counter by 1 exactly when it succeeds and leaves it unchanged otherwise. -/
theorem checkAndConsume_total (userPlan : Option String) (t : UsageTracking)
    (now : Int) :
    (checkAndConsume userPlan t now).2.total_debates =
      t.total_debates +
        (if succeeded (checkAndConsume userPlan t now).1 then 1 else 0) := by
  unfold checkAndConsume checkAndConsumeWith
  cases hp : PLAN_LIMITS (planOrDefault userPlan) with
  | none => simp [hp, succeeded]
  | some limits =>
    by_cases h1 :
        (resetWindows now t).requests_this_minute ≥ limits.rate_per_minute
    · simp [hp, h1, succeeded]
    · by_cases h2 : limits.daily_debates ≠ -1 ∧
          (resetWindows now t).debates_today ≥ limits.daily_debates
      · simp [hp, h1, h2, succeeded]
      · by_cases h3 : limits.monthly_debates ≠ -1 ∧
            (resetWindows now t).debates_this_month ≥ limits.monthly_debates
        · simp [hp, h1, h2, h3, succeeded]
        · simp [hp, h1, h2, h3, succeeded, resetWindows_total_debates]

/-- C6: `total_debates` is never touched by a window reset, grows by exactly
the number of successful calls across any call sequence (hence is
monotonically non-decreasing), and from a freshly created record it equals
exactly the number of successful calls. -/
theorem c6_total_debates_counts_successes (userPlan : Option String)
    (t : UsageTracking) (now : Int) (calls : List Int) :
    (resetWindows now t).total_debates = t.total_debates ∧
    (runCalls userPlan t calls).1.total_debates =
      t.total_debates + ((runCalls userPlan t calls).2 : Int) ∧
    t.total_debates ≤ (runCalls userPlan t calls).1.total_debates ∧
    ∀ t0 : Int, (runCalls userPlan (newTracking t0) calls).1.total_debates =
      ((runCalls userPlan (newTracking t0) calls).2 : Int) := by
  have key : ∀ (cs : List Int) (s : UsageTracking),
      (runCalls userPlan s cs).1.total_debates =
        s.total_debates + ((runCalls userPlan s cs).2 : Int) := by
    intro cs
    induction cs with
    | nil => intro s; simp [runCalls]
    | cons now2 rest ih =>
      intro s
      simp only [runCalls]
      rw [ih, checkAndConsume_total userPlan s now2]
      by_cases h : succeeded (checkAndConsume userPlan s now2).1 <;>
        simp [h] <;> omega
  refine ⟨resetWindows_total_debates now t, key calls t, ?_, ?_⟩
  · rw [key calls t]
    have hn : (0 : Int) ≤ ((runCalls userPlan t calls).2 : Int) :=
      Int.ofNat_nonneg _
    omega
  · intro t0
    rw [key calls (newTracking t0)]
    simp [newTracking]

/-- C7 counterexample: the rate-limit error's detail dict does not carry the
limit value or the used amount as fields — the rate branch of
`check_and_consume` populates only `error`, `message` and `upgrade`, so
`used` and `limit` are absent (the limit value appears only inside the
message text). -/
theorem c7_counterexample_rate_payload :
    (checkAndConsume (some "free")
        { debates_today := 0, daily_reset_at := 0, debates_this_month := 0,
          monthly_reset_at := 0, requests_this_minute := 3,
          minute_window_start := 0, total_debates := 3 } 0).1 =
      .error (.http 429
        { error := "rate_limit_exceeded",
          message := "Slow down! Max 3 requests/minute on free plan.",
          used := none, limit := none, resets_in := none,
          upgrade := true }) := rfl

/-- C7 amended: every structured quota error carries an upgrade flag that is
true exactly when the plan is not enterprise, and is one of the three known
error names; the daily and monthly errors additionally carry the used amount
(the exact post-reset counter) and the exact configured limit value, while
the rate error carries neither a `used` nor a `limit` field. -/
theorem c7_error_payload (userPlan : Option String) (t : UsageTracking)
    (now : Int) (limits : Limits) (c : Nat) (d : ErrorDetail)
    (hl : PLAN_LIMITS (planOrDefault userPlan) = some limits)
    (h : (checkAndConsume userPlan t now).1 = .error (.http c d)) :
    d.upgrade = (planOrDefault userPlan != "enterprise") ∧
    (d.error = "daily_limit_exceeded" →
      d.used = some (resetWindows now t).debates_today ∧
      d.limit = some limits.daily_debates) ∧
    (d.error = "monthly_limit_exceeded" →
      d.used = some (resetWindows now t).debates_this_month ∧
      d.limit = some limits.monthly_debates) ∧
    (d.error = "rate_limit_exceeded" → d.used = none ∧ d.limit = none) ∧
    (d.error = "rate_limit_exceeded" ∨ d.error = "daily_limit_exceeded" ∨
      d.error = "monthly_limit_exceeded") := by
  unfold checkAndConsume at h
  simp only [hl] at h
  cases hcw : checkAndConsumeWith (planOrDefault userPlan) limits t now with
    | ok v =>
      obtain ⟨t2, snap⟩ := v
      simp only [hcw] at h
      exact Except.noConfusion h
    | error e =>
      simp only [hcw] at h
      injection h with h2
      subst h2
      simp only [checkAndConsumeWith] at hcw
      split at hcw
      · injection hcw with hcw2
        injection hcw2 with hc2 hd2
        subst hd2
        refine ⟨rfl, by simp, by simp, fun _ => ⟨rfl, rfl⟩, Or.inl rfl⟩
      · split at hcw
        · injection hcw with hcw2
          injection hcw2 with hc2 hd2
          subst hd2
          refine ⟨rfl, fun _ => ⟨rfl, rfl⟩, by simp, by simp,
            Or.inr (Or.inl rfl)⟩
        · split at hcw
          · injection hcw with hcw2
            injection hcw2 with hc2 hd2
            subst hd2
            refine ⟨rfl, by simp, fun _ => ⟨rfl, rfl⟩, by simp,
              Or.inr (Or.inr rfl)⟩
          · simp at hcw

/-- Witness for c7_error_payload: a free-plan record at the daily limit
fails with the daily error, whose payload carries used = 5, the daily limit
value 5, and upgrade = true. -/
theorem c7_error_payload_witness :
    ({ error := "daily_limit_exceeded",
       message := "Daily limit of 5 debates reached on free plan.",
       used := some 5, limit := some 5, resets_in := some "24 hours",
       upgrade := true } : ErrorDetail).upgrade =
      (planOrDefault (some "free") != "enterprise") ∧
    (({ error := "daily_limit_exceeded",
        message := "Daily limit of 5 debates reached on free plan.",
        used := some 5, limit := some 5, resets_in := some "24 hours",
        upgrade := true } : ErrorDetail).error = "daily_limit_exceeded" →
      ({ error := "daily_limit_exceeded",
         message := "Daily limit of 5 debates reached on free plan.",
         used := some 5, limit := some 5, resets_in := some "24 hours",
         upgrade := true } : ErrorDetail).used =
        some (resetWindows 0
          { debates_today := 5, daily_reset_at := 0, debates_this_month := 10,
            monthly_reset_at := 0, requests_this_minute := 0,
            minute_window_start := 0, total_debates := 15 }).debates_today ∧
      ({ error := "daily_limit_exceeded",
         message := "Daily limit of 5 debates reached on free plan.",
         used := some 5, limit := some 5, resets_in := some "24 hours",
         upgrade := true } : ErrorDetail).limit = some 5) ∧
    (({ error := "daily_limit_exceeded",
        message := "Daily limit of 5 debates reached on free plan.",
        used := some 5, limit := some 5, resets_in := some "24 hours",
        upgrade := true } : ErrorDetail).error = "monthly_limit_exceeded" →
      ({ error := "daily_limit_exceeded",
         message := "Daily limit of 5 debates reached on free plan.",
         used := some 5, limit := some 5, resets_in := some "24 hours",
         upgrade := true } : ErrorDetail).used =
        some (resetWindows 0
          { debates_today := 5, daily_reset_at := 0, debates_this_month := 10,
            monthly_reset_at := 0, requests_this_minute := 0,
            minute_window_start := 0, total_debates := 15 }).debates_this_month ∧
      ({ error := "daily_limit_exceeded",
         message := "Daily limit of 5 debates reached on free plan.",
         used := some 5, limit := some 5, resets_in := some "24 hours",
         upgrade := true } : ErrorDetail).limit = some 50) ∧
    (({ error := "daily_limit_exceeded",
        message := "Daily limit of 5 debates reached on free plan.",
        used := some 5, limit := some 5, resets_in := some "24 hours",
        upgrade := true } : ErrorDetail).error = "rate_limit_exceeded" →
      ({ error := "daily_limit_exceeded",
         message := "Daily limit of 5 debates reached on free plan.",
         used := some 5, limit := some 5, resets_in := some "24 hours",
         upgrade := true } : ErrorDetail).used = none ∧
      ({ error := "daily_limit_exceeded",
         message := "Daily limit of 5 debates reached on free plan.",
         used := some 5, limit := some 5, resets_in := some "24 hours",
         upgrade := true } : ErrorDetail).limit = none) ∧
    (({ error := "daily_limit_exceeded",
        message := "Daily limit of 5 debates reached on free plan.",
        used := some 5, limit := some 5, resets_in := some "24 hours",
        upgrade := true } : ErrorDetail).error = "rate_limit_exceeded" ∨
      ({ error := "daily_limit_exceeded",
         message := "Daily limit of 5 debates reached on free plan.",
         used := some 5, limit := some 5, resets_in := some "24 hours",
         upgrade := true } : ErrorDetail).error = "daily_limit_exceeded" ∨
      ({ error := "daily_limit_exceeded",
         message := "Daily limit of 5 debates reached on free plan.",
         used := some 5, limit := some 5, resets_in := some "24 hours",
         upgrade := true } : ErrorDetail).error = "monthly_limit_exceeded") :=
  c7_error_payload (some "free")
    { debates_today := 5, daily_reset_at := 0, debates_this_month := 10,
      monthly_reset_at := 0, requests_this_minute := 0,
      minute_window_start := 0, total_debates := 15 } 0
    { daily_debates := 5, monthly_debates := 50, rate_per_minute := 3 } 429
    { error := "daily_limit_exceeded",
      message := "Daily limit of 5 debates reached on free plan.",
      used := some 5, limit := some 5, resets_in := some "24 hours",
      upgrade := true } rfl rfl

/-- C8 counterexample: an unrecognized plan neither falls back to the free
entry nor produces a scoped configuration error: the `PLAN_LIMITS[plan]`
lookup raises a bare `KeyError` that escapes `check_and_consume` — the free
plan's result on the same record differs, and the failure carries no
structured detail. -/
theorem c8_counterexample_unknown_plan :
    checkAndConsume (some "platinum") (newTracking 0) 0 =
      (.error (.keyError "platinum"), newTracking 0) ∧
    (checkAndConsume (some "free") (newTracking 0) 0).1 ≠
      (checkAndConsume (some "platinum") (newTracking 0) 0).1 := by
  refine ⟨rfl, ?_⟩
  have h1 : (checkAndConsume (some "free") (newTracking 0) 0).1 =
      .ok { plan := "free", used_today := 1, daily_limit := 5,
            used_monthly := 1, monthly_limit := 50 } := rfl
  have h2 : (checkAndConsume (some "platinum") (newTracking 0) 0).1 =
      .error (.keyError "platinum") := rfl
  rw [h1, h2]
  exact fun hx => Except.noConfusion hx

/-- C8 amended: an unset (`None`) or empty plan defaults to "free"; a plan
outside the catalog raises the bare `KeyError` with the record untouched —
never a silent fallback to a permissive result, but also not a scoped
configuration error. -/
theorem c8_plan_lookup (t : UsageTracking) (now : Int) (s : String)
    (h1 : s ≠ "free") (h2 : s ≠ "pro") (h3 : s ≠ "enterprise")
    (h4 : s ≠ "") :
    checkAndConsume none t now = checkAndConsume (some "free") t now ∧
    checkAndConsume (some "") t now = checkAndConsume (some "free") t now ∧
    checkAndConsume (some s) t now = (.error (.keyError s), t) := by
  refine ⟨rfl, rfl, ?_⟩
  unfold checkAndConsume
  have hp : planOrDefault (some s) = s := by simp [planOrDefault, h4]
  have hnone : PLAN_LIMITS s = none := by simp [PLAN_LIMITS, h1, h2, h3]
  simp only [hp, hnone]

/-- Witness for c8_plan_lookup at the concrete unrecognized plan
"platinum". -/
theorem c8_plan_lookup_witness :
    checkAndConsume none (newTracking 5) 5 =
      checkAndConsume (some "free") (newTracking 5) 5 ∧
    checkAndConsume (some "") (newTracking 5) 5 =
      checkAndConsume (some "free") (newTracking 5) 5 ∧
    checkAndConsume (some "platinum") (newTracking 5) 5 =
      (.error (.keyError "platinum"), newTracking 5) :=
  c8_plan_lookup (newTracking 5) 5 "platinum"
    (by decide) (by decide) (by decide) (by decide)

end Nurox
